import Mathlib

/-
Verification of the metadata extractor in src/ingest/python/procreate_meta.py.

The Python module decodes an NSKeyedArchive (already decoded by the external
biplist library into an object table plus a root pointer), extracts a fixed
metadata schema with per-field fallback rules, converts Apple-epoch timestamps
to unix time, extracts an embedded thumbnail, and hashes the source file.

Embedding conventions:
  - Python plist values (as produced by biplist) are the inductive `PValue`.
    Python floats are modelled as exact rationals; machine rounding and float
    overflow are outside the model.
  - Python dicts are insertion-ordered association lists with unique keys;
    `d.get(k)` returns `PValue.none` when the key is absent or maps to None,
    exactly as in Python where both behave identically downstream.
  - Raising code is modelled with `Except PyErr`, one constructor per Python
    exception class that the source can raise; `PyErr.contentError` stands for
    the image-validation failure raised by the external PIL library.
  - External collaborators (biplist decoding, PIL validation, the zip entry
    timestamps) enter as already-decoded inputs or boolean parameters.
-/

namespace ProcreateMeta

/-- Python values returned by biplist for a decoded binary plist. -/
inductive PValue where
  | none
  | bool (b : Bool)
  | int (n : Int)
  | real (q : Rat)
  | str (s : String)
  | uid (n : Nat)
  | arr (items : List PValue)
  | dict (entries : List (String × PValue))

/-- Python exception classes the source code can raise (contentError stands
for the PIL image-validation failure). -/
inductive PyErr where
  | runtimeError
  | attributeError
  | typeError
  | valueError
  | indexError
  | keyError
  | contentError
  deriving DecidableEq

/-- First-match lookup in an association list, mirroring a Python dict whose
keys are unique. -/
def lookupKV : List (String × PValue) → String → Option PValue
  | [], _ => Option.none
  | (k, v) :: rest, key => if k = key then some v else lookupKV rest key

/-- Python `d.get(key)`: the stored value, or None when absent. -/
def dictGet (entries : List (String × PValue)) (key : String) : PValue :=
  (lookupKV entries key).getD PValue.none

/-- Python truthiness of a plist value. -/
def truthy : PValue → Bool
  | PValue.none => false
  | PValue.bool b => b
  | PValue.int n => n != 0
  | PValue.real q => q != 0
  | PValue.str s => s != ""
  | PValue.uid n => n != 0
  | PValue.arr items => !items.isEmpty
  | PValue.dict entries => !entries.isEmpty

/-- Python `a or b`. -/
def pyOr (a b : PValue) : PValue := if truthy a then a else b

/-- True exactly on the `dict` constructor. -/
def PValue.isDict : PValue → Bool
  | PValue.dict _ => true
  | _ => false

/-- True exactly on the `none` constructor. -/
def PValue.isNone : PValue → Bool
  | PValue.none => true
  | _ => false

/-- Truncation toward zero of a rational, which is what Python `int(float)`
performs on a finite float. -/
def ratTrunc (q : Rat) : Int := q.num.tdiv (q.den : Int)

/-- Numeric value of a list of decimal digit characters. -/
def digitsVal (cs : List Char) : Nat :=
  cs.foldl (fun a c => a * 10 + (c.toNat - 48)) 0

/-- Remove characters satisfying the predicate from both ends of a character
list (Python `s.strip(...)`). -/
def stripBoth (bad : Char → Bool) (cs : List Char) : List Char :=
  ((cs.dropWhile bad).reverse.dropWhile bad).reverse

/-- Python `s.strip()`: strip whitespace from both ends. -/
def trimChars (cs : List Char) : List Char :=
  stripBoth Char.isWhitespace cs

/-- Python `s.split(sep)` for a one-character separator: split at every
occurrence, keeping empty parts, with the empty string giving one empty
part. -/
def splitOnChar (sep : Char) : List Char → List (List Char)
  | [] => [[]]
  | c :: rest =>
    if c = sep then [] :: splitOnChar sep rest
    else
      match splitOnChar sep rest with
      | h :: t => (c :: h) :: t
      | [] => [[c]]

/-- Python `int(s)` on a string: optional surrounding whitespace, optional
sign, then a nonempty run of decimal digits; anything else raises. -/
def parseIntStr (s : String) : Option Int :=
  let cs := trimChars s.data
  let sd : Int × List Char :=
    match cs with
    | '+' :: r => (1, r)
    | '-' :: r => (-1, r)
    | r => (1, r)
  if sd.2 ≠ [] ∧ sd.2.all Char.isDigit then some (sd.1 * (digitsVal sd.2 : Int))
  else Option.none

/-- Python `int(x)`: identity on ints, 0/1 on bools, truncation on floats,
decimal parse on strings (ValueError on failure), TypeError otherwise.
A biplist Uid carries its integer, as line 68 of the source assumes. -/
def pyInt : PValue → Except PyErr Int
  | PValue.bool b => Except.ok (if b then 1 else 0)
  | PValue.int n => Except.ok n
  | PValue.real q => Except.ok (ratTrunc q)
  | PValue.uid n => Except.ok (n : Int)
  | PValue.str s =>
    match parseIntStr s with
    | some n => Except.ok n
    | Option.none => Except.error PyErr.valueError
  | _ => Except.error PyErr.typeError

/-- Exponent suffix of a Python float literal: empty means exponent 0, else
`e`/`E`, an optional sign and a nonempty digit run; anything else fails. -/
def parseExp (cs : List Char) : Option Int :=
  match cs with
  | [] => some 0
  | c :: rest =>
    if c = 'e' ∨ c = 'E' then
      let sd : Int × List Char :=
        match rest with
        | '+' :: r => (1, r)
        | '-' :: r => (-1, r)
        | r => (1, r)
      if sd.2 ≠ [] ∧ sd.2.all Char.isDigit then some (sd.1 * (digitsVal sd.2 : Int))
      else Option.none
    else Option.none

/-- Assemble sign, integer part, fractional part and exponent into an exact
rational: sgn * digits(ip ++ fp) * 10 ^ e / 10 ^ length fp. -/
def ratOfParts (sgn : Int) (ip fp : List Char) (e : Int) : Rat :=
  mkRat (sgn * (digitsVal (ip ++ fp) : Int) * ((10 : Nat) ^ e.toNat : Nat))
    ((10 : Nat) ^ fp.length * (10 : Nat) ^ (-e).toNat)

/-- Python `float(s)` on a stripped string, as an exact rational: sign,
digits with an optional point, optional exponent.  Returns nothing on any
input on which the subsequent `int(...)` in the source would raise, which
covers both unparseable strings and the inf/nan spellings. -/
def parseFloat (s : String) : Option Rat :=
  let cs := trimChars s.data
  let sd : Int × List Char :=
    match cs with
    | '+' :: r => (1, r)
    | '-' :: r => (-1, r)
    | r => (1, r)
  let ipRest := sd.2.span Char.isDigit
  match ipRest.2 with
  | '.' :: r =>
    let fpRest := r.span Char.isDigit
    if ipRest.1 = [] ∧ fpRest.1 = [] then Option.none
    else (parseExp fpRest.2).map (ratOfParts sd.1 ipRest.1 fpRest.1)
  | rest =>
    if ipRest.1 = [] then Option.none
    else (parseExp rest).map (ratOfParts sd.1 ipRest.1 [])

/-- `cfuid` (source lines 62-71): a dict is probed for the key `CF$UID` and
the carried value is returned when the key is present; a native biplist Uid
yields its integer; everything else yields None. -/
def cfuid : PValue → PValue
  | PValue.dict entries =>
    match lookupKV entries "CF$UID" with
    | some v => v
    | Option.none => PValue.none
  | PValue.uid n => PValue.int n
  | _ => PValue.none

/-- Python list indexing `objects[i]` with an integer index: negative indices
wrap from the end, out-of-range raises IndexError. -/
def listGetInt (objects : List PValue) (i : Int) : Except PyErr PValue :=
  if 0 ≤ i ∧ i < (objects.length : Int) then
    Except.ok (objects.getD i.toNat PValue.none)
  else if -(objects.length : Int) ≤ i ∧ i < 0 then
    Except.ok (objects.getD (i + (objects.length : Int)).toNat PValue.none)
  else Except.error PyErr.indexError

/-- Python list indexing `objects[v]` with an arbitrary value: ints (and
int-like bools and Uids) index, anything else raises TypeError. -/
def pyIndex (objects : List PValue) : PValue → Except PyErr PValue
  | PValue.int i => listGetInt objects i
  | PValue.bool b => listGetInt objects (if b then 1 else 0)
  | PValue.uid n => listGetInt objects (n : Int)
  | _ => Except.error PyErr.typeError

/-- `resolve` (source lines 73-75): dereference a CF$UID-shaped value through
the object table, pass every other value through unchanged. -/
def resolve (objects : List PValue) (value : PValue) : Except PyErr PValue :=
  match cfuid value with
  | PValue.none => Except.ok value
  | u => pyIndex objects u

/-- Characters stripped by `canvas.strip` with a brace argument. -/
def isBrace (c : Char) : Bool := c == '\x7b' || c == '\x7d'

/-- The canvas-string branch of the source (lines 110-120).  The `try` body
splits on commas and, only when there are exactly two parts, assigns both
fields from `int(float(part))`; a raise inside the body sets both fields to
zero, while a two-part count mismatch leaves both fields unassigned, which is
modelled by `Option.none`. -/
def canvasFromStr (s : String) : Option Int × Option Int :=
  let parts := (splitOnChar ',' (stripBoth isBrace s.data)).map
    (fun p => String.mk (trimChars p))
  match parts with
  | [p0, p1] =>
    match parseFloat p0, parseFloat p1 with
    | some w, some h => (some (ratTrunc w), some (ratTrunc h))
    | _, _ => (some 0, some 0)
  | _ => (Option.none, Option.none)

/-- Canvas extraction (source lines 106-123): resolve `canvasSize` or `size`,
then branch on the shape of the result. -/
def canvasField (objects : List PValue) (root : List (String × PValue)) :
    Except PyErr (Option Int × Option Int) :=
  match resolve objects (pyOr (dictGet root "canvasSize") (dictGet root "size")) with
  | Except.error e => Except.error e
  | Except.ok (PValue.dict c) =>
    match pyInt ((lookupKV c "width").getD (PValue.int 0)) with
    | Except.error e => Except.error e
    | Except.ok w =>
      match pyInt ((lookupKV c "height").getD (PValue.int 0)) with
      | Except.error e => Except.error e
      | Except.ok h => Except.ok (some w, some h)
  | Except.ok (PValue.str s) => Except.ok (canvasFromStr s)
  | Except.ok _ => Except.ok (some 0, some 0)

/-- Python `int(v) if v else 0`, the cast used for dpi, layer count and
tracked time. -/
def intOrZeroField (v : PValue) : Except PyErr Int :=
  if truthy v then pyInt v else Except.ok 0

/-- DPI extraction (source lines 126-127). -/
def dpiField (root : List (String × PValue)) : Except PyErr Int :=
  intOrZeroField (pyOr (dictGet root "dpi") (dictGet root "SilicaDocumentArchiveDPIKey"))

/-- Tracked drawing time extraction (source lines 151-152). -/
def timeSpentField (root : List (String × PValue)) : Except PyErr Int :=
  intOrZeroField
    (pyOr (dictGet root "timeSpentDrawing") (dictGet root "SilicaDocumentTrackedTimeKey"))

/-- Python hashability of a plist value: lists and dicts raise TypeError as
dictionary keys. -/
def hashable : PValue → Bool
  | PValue.arr _ => false
  | PValue.dict _ => false
  | _ => true

/-- Python `v == m` for an integer m: numbers compare by value across int,
float and bool; other values are unequal. -/
def pvNumEq (v : PValue) (m : Int) : Bool :=
  match v with
  | PValue.bool b => (if b then (1 : Int) else 0) == m
  | PValue.int n => n == m
  | PValue.real q => q == (m : Rat)
  | PValue.uid n => (n : Int) == m
  | _ => false

/-- Orientation extraction (source lines 130-136): look the value up in the
map with keys 1 and 2, defaulting to unknown. -/
def orientationField (root : List (String × PValue)) : Except PyErr String :=
  let v := dictGet root "orientation"
  if hashable v then
    Except.ok (if pvNumEq v 1 then "portrait" else if pvNumEq v 2 then "landscape" else "unknown")
  else Except.error PyErr.typeError

/-- Python `len(v)` for sized values; TypeError otherwise. -/
def pyLen : PValue → Except PyErr Int
  | PValue.str s => Except.ok (s.length : Int)
  | PValue.arr items => Except.ok (items.length : Int)
  | PValue.dict entries => Except.ok (entries.length : Int)
  | _ => Except.error PyErr.typeError

/-- Layer count extraction (source lines 139-148): an explicit `layerCount`
value wins; otherwise a truthy `layers` reference is resolved and its length
taken when it is an NS.objects wrapper or a plain list. -/
def layerCountField (objects : List PValue) (root : List (String × PValue)) :
    Except PyErr Int :=
  match dictGet root "layerCount" with
  | PValue.none =>
    let lref := dictGet root "layers"
    if truthy lref then
      match resolve objects lref with
      | Except.error e => Except.error e
      | Except.ok (PValue.dict c) =>
        match lookupKV c "NS.objects" with
        | some nv =>
          match pyLen nv with
          | Except.error e => Except.error e
          | Except.ok n => Except.ok n
        | Option.none => Except.ok 0
      | Except.ok (PValue.arr items) => Except.ok (items.length : Int)
      | Except.ok _ => Except.ok 0
    else Except.ok 0
  | v => intOrZeroField v

/-- Color profile extraction (source lines 155-171). -/
def colorProfileField (objects : List PValue) (root : List (String × PValue)) :
    Except PyErr PValue :=
  let cref := dictGet root "colorProfile"
  if truthy cref then
    match resolve objects cref with
    | Except.error e => Except.error e
    | Except.ok (PValue.dict c) =>
      match resolve objects (dictGet c "SiColorProfileArchiveICCNameKey") with
      | Except.error e => Except.error e
      | Except.ok rn =>
        let cp1 := match rn with
          | PValue.str s => PValue.str s
          | _ => PValue.none
        Except.ok (if truthy cp1 then cp1 else pyOr (dictGet c "name") (dictGet c "iccName"))
    | Except.ok (PValue.str s) => Except.ok (PValue.str s)
    | Except.ok _ => Except.ok PValue.none
  else Except.ok PValue.none

/-- App version extraction (source line 174). -/
def versionVal (root : List (String × PValue)) : PValue :=
  pyOr (dictGet root "appVersion") (dictGet root "version")

/-- The first-truthy chain of creation-date candidates (source lines 183-187). -/
def createdVal (root : List (String × PValue)) : PValue :=
  pyOr (dictGet root "creationDate")
    (pyOr (dictGet root "SilicaDocumentArchiveCreationDateKey")
      (dictGet root "documentCreationDate"))

/-- The first-truthy chain of modification-date candidates (source lines 188-192). -/
def modifiedVal (root : List (String × PValue)) : PValue :=
  pyOr (dictGet root "lastModifiedDate")
    (pyOr (dictGet root "SilicaDocumentArchiveModificationDateKey")
      (dictGet root "modificationDate"))

/-- Python `v + n` for an integer n: numeric values add, everything else
raises TypeError. -/
def pyAddInt (v : PValue) (n : Int) : Except PyErr PValue :=
  match v with
  | PValue.bool b => Except.ok (PValue.int ((if b then 1 else 0) + n))
  | PValue.int m => Except.ok (PValue.int (m + n))
  | PValue.real q => Except.ok (PValue.real (q + (n : Rat)))
  | PValue.uid m => Except.ok (PValue.int ((m : Int) + n))
  | _ => Except.error PyErr.typeError

/-- `apple_time_to_unix` (source lines 177-180): None passes through, any
other value has 978307200 added and is truncated to an integer. -/
def apple_time_to_unix (val : PValue) : Except PyErr (Option Int) :=
  match val with
  | PValue.none => Except.ok Option.none
  | v =>
    match pyAddInt v 978307200 with
    | Except.error e => Except.error e
    | Except.ok s =>
      match pyInt s with
      | Except.error e => Except.error e
      | Except.ok n => Except.ok (some n)

/-- The zip container as seen by the extractor: the decoded Document.archive
(object table and root pointer) when the entry exists, the raw thumbnail
bytes when that entry exists, and the unix timestamps the source computes
from the stored date_time of the two entries (absent when the entry is
missing or its date cannot be converted). -/
structure Zip where
  archive : Option (List PValue × PValue)
  thumb : Option (List Nat)
  thumbTs : Option Int
  archiveTs : Option Int

/-- Container fallback timestamp (source lines 201-218): the thumbnail
entry's timestamp is preferred, then the main archive entry's. -/
def zipTimestamp (z : Zip) : Option Int :=
  match z.thumbTs with
  | some t => some t
  | Option.none => z.archiveTs

/-- The zip-timestamp substitution (source lines 199-224): only when a zip
handle was passed and at least one date is missing, each missing date is
replaced by the container timestamp when one exists. -/
def applyZipFallback (zf : Option Zip) (c u : Option Int) : Option Int × Option Int :=
  match zf with
  | Option.none => (c, u)
  | some z =>
    if c.isNone || u.isNone then
      match zipTimestamp z with
      | some t => (some (c.getD t), some (u.getD t))
      | Option.none => (c, u)
    else (c, u)

/-- The ordering clamp (source lines 227-229): when both dates are present
and created is later than updated, created is pulled back to updated. -/
def clampDates : Option Int × Option Int → Option Int × Option Int
  | (some c, some u) => if u < c then (some u, some u) else (some c, some u)
  | p => p

/-- The date pipeline of the extractor: convert both chains, substitute the
container timestamp, clamp. -/
def datesField (root : List (String × PValue)) (zf : Option Zip) :
    Except PyErr (Option Int × Option Int) :=
  (apple_time_to_unix (createdVal root)).bind fun c =>
  (apple_time_to_unix (modifiedVal root)).bind fun u =>
  Except.ok (clampDates (applyZipFallback zf c u))

/-- The metadata dictionary built by `parse_document_archive`.  Every field
except the two canvas fields is assigned unconditionally by the source; the
canvas fields can be left unassigned (see `canvasFromStr`), so they are
options with `Option.none` meaning the key is absent from the result. -/
structure Meta where
  canvas_width : Option Int
  canvas_height : Option Int
  dpi : Int
  orientation : String
  layer_count : Int
  time_spent : Int
  color_profile : PValue
  procreate_version : PValue
  created_at : Option Int
  updated_at : Option Int

/-- Field extraction of `parse_document_archive` after the root dict has been
obtained (source lines 101-231), in source order. -/
def extractMeta (objects : List PValue) (root : List (String × PValue)) (zf : Option Zip) :
    Except PyErr Meta :=
  (canvasField objects root).bind fun cw =>
  (dpiField root).bind fun dpi =>
  (orientationField root).bind fun orient =>
  (layerCountField objects root).bind fun lc =>
  (timeSpentField root).bind fun tsp =>
  (colorProfileField objects root).bind fun cp =>
  (datesField root zf).bind fun cu =>
  Except.ok
    { canvas_width := cw.1
      canvas_height := cw.2
      dpi := dpi
      orientation := orient
      layer_count := lc
      time_spent := tsp
      color_profile := cp
      procreate_version := versionVal root
      created_at := cu.1
      updated_at := cu.2 }

/-- Root resolution (source lines 95-99): an unresolvable root pointer raises
the explicit RuntimeError, otherwise the carried value indexes the object
table. -/
def rootOf (objects : List PValue) (rootRef : PValue) : Except PyErr PValue :=
  match cfuid rootRef with
  | PValue.none => Except.error PyErr.runtimeError
  | v => pyIndex objects v

/-- `parse_document_archive` (source lines 88-231) on a decoded archive: the
object table and the top-level root pointer stand for the biplist decode of
the input bytes.  A non-dict root raises AttributeError at the first
`root.get` of the extraction section. -/
def parse_document_archive (objects : List PValue) (rootRef : PValue) (zf : Option Zip) :
    Except PyErr Meta :=
  match rootOf objects rootRef with
  | Except.error e => Except.error e
  | Except.ok (PValue.dict root) => extractMeta objects root zf
  | Except.ok _ => Except.error PyErr.attributeError

/-- The keys `parse_document_archive` consults on the root dict. -/
def metaKeys : List String :=
  ["canvasSize", "size", "dpi", "SilicaDocumentArchiveDPIKey", "orientation", "layerCount",
   "layers", "timeSpentDrawing", "SilicaDocumentTrackedTimeKey", "colorProfile", "appVersion",
   "version", "creationDate", "SilicaDocumentArchiveCreationDateKey", "documentCreationDate",
   "lastModifiedDate", "SilicaDocumentArchiveModificationDateKey", "modificationDate"]

/-- Every key the extractor consults is absent from the root dict (or holds
Python None, which `get` makes indistinguishable from absence). -/
def noMetaKeys (root : List (String × PValue)) : Bool :=
  metaKeys.all (fun key => (dictGet root key).isNone)

/-- Split a byte list into consecutive chunks of size n (the successive
results of `f.read(chunk_size)` in the source). -/
def chunksBy (n : Nat) : List Nat → List (List Nat)
  | [] => []
  | b :: bs => ((b :: bs).take n) :: chunksBy n (bs.drop (n - 1))
termination_by l => l.length
decreasing_by
  simp only [List.length_drop, List.length_cons]
  omega

/-- 32-bit word arithmetic for SHA-256. -/
def M32 : Nat := 4294967296

/-- Right rotation of a 32-bit word. -/
def rotr32 (n x : Nat) : Nat := ((x >>> n) ||| (x <<< (32 - n))) % M32

/-- SHA-256: the Ch bitwise choice function. -/
def chFun (e f g : Nat) : Nat := (e &&& f) ^^^ ((e ^^^ 4294967295) &&& g)

/-- SHA-256: the Maj bitwise majority function. -/
def majFun (a b c : Nat) : Nat := (a &&& b) ^^^ (a &&& c) ^^^ (b &&& c)

/-- SHA-256: big sigma 0. -/
def bigSigma0 (x : Nat) : Nat := rotr32 2 x ^^^ rotr32 13 x ^^^ rotr32 22 x

/-- SHA-256: big sigma 1. -/
def bigSigma1 (x : Nat) : Nat := rotr32 6 x ^^^ rotr32 11 x ^^^ rotr32 25 x

/-- SHA-256: small sigma 0. -/
def smallSigma0 (x : Nat) : Nat := rotr32 7 x ^^^ rotr32 18 x ^^^ (x >>> 3)

/-- SHA-256: small sigma 1. -/
def smallSigma1 (x : Nat) : Nat := rotr32 17 x ^^^ rotr32 19 x ^^^ (x >>> 10)

/-- SHA-256 round constants (FIPS 180-4, written in decimal). -/
def shaK : List Nat :=
  [1116352408, 1899447441, 3049323471, 3921009573, 961987163, 1508970993,
   2453635748, 2870763221, 3624381080, 310598401, 607225278, 1426881987,
   1925078388, 2162078206, 2614888103, 3248222580, 3835390401, 4022224774,
   264347078, 604807628, 770255983, 1249150122, 1555081692, 1996064986,
   2554220882, 2821834349, 2952996808, 3210313671, 3336571891, 3584528711,
   113926993, 338241895, 666307205, 773529912, 1294757372, 1396182291,
   1695183700, 1986661051, 2177026350, 2456956037, 2730485921, 2820302411,
   3259730800, 3345764771, 3516065817, 3600352804, 4094571909, 275423344,
   430227734, 506948616, 659060556, 883997877, 958139571, 1322822218,
   1537002063, 1747873779, 1955562222, 2024104815, 2227730452, 2361852424,
   2428436474, 2756734187, 3204031479, 3329325298]

/-- The eight 32-bit words of a SHA-256 chaining state. -/
structure S8 where
  a : Nat
  b : Nat
  c : Nat
  d : Nat
  e : Nat
  f : Nat
  g : Nat
  h : Nat

/-- SHA-256 initial state (FIPS 180-4, written in decimal). -/
def shaH0 : S8 :=
  S8.mk 1779033703 3144134277 1013904242 2773480762 1359893119 2600822924 528734635 1541459225

/-- Append the next message-schedule word. -/
def scheduleStep (w : List Nat) : List Nat :=
  w ++ [(smallSigma1 (w.getD (w.length - 2) 0) + w.getD (w.length - 7) 0 +
         smallSigma0 (w.getD (w.length - 15) 0) + w.getD (w.length - 16) 0) % M32]

/-- Expand 16 block words to the 64-entry message schedule. -/
def schedule (w16 : List Nat) : List Nat :=
  (List.range 48).foldl (fun w _ => scheduleStep w) w16

/-- One SHA-256 round. -/
def roundStep (w : List Nat) (st : S8) (i : Nat) : S8 :=
  let t1 := (st.h + bigSigma1 st.e + chFun st.e st.f st.g + shaK.getD i 0 + w.getD i 0) % M32
  let t2 := (bigSigma0 st.a + majFun st.a st.b st.c) % M32
  S8.mk ((t1 + t2) % M32) st.a st.b st.c ((st.d + t1) % M32) st.e st.f st.g

/-- Big-endian bytes of a 32-bit word. -/
def be4 (x : Nat) : List Nat :=
  [(x >>> 24) % 256, (x >>> 16) % 256, (x >>> 8) % 256, x % 256]

/-- Big-endian bytes of a 64-bit length field. -/
def be8 (x : Nat) : List Nat :=
  [(x >>> 56) % 256, (x >>> 48) % 256, (x >>> 40) % 256, (x >>> 32) % 256,
   (x >>> 24) % 256, (x >>> 16) % 256, (x >>> 8) % 256, x % 256]

/-- SHA-256 compression of one 64-byte block into the chaining state. -/
def compress (st : S8) (block : List Nat) : S8 :=
  let w := schedule ((chunksBy 4 block).map (fun c => c.foldl (fun a b => a * 256 + b) 0))
  let r := (List.range 64).foldl (roundStep w) st
  S8.mk ((st.a + r.a) % M32) ((st.b + r.b) % M32) ((st.c + r.c) % M32) ((st.d + r.d) % M32)
    ((st.e + r.e) % M32) ((st.f + r.f) % M32) ((st.g + r.g) % M32) ((st.h + r.h) % M32)

/-- SHA-256 padding: a 0x80 byte, zeros to 56 mod 64, then the bit length. -/
def padMsg (bs : List Nat) : List Nat :=
  bs ++ 128 :: (List.replicate ((64 - (bs.length + 9) % 64) % 64) 0 ++ be8 (8 * bs.length))

/-- SHA-256 digest (32 bytes) of a byte list. -/
def sha256bytes (bs : List Nat) : List Nat :=
  let fin := (chunksBy 64 (padMsg bs)).foldl compress shaH0
  be4 fin.a ++ be4 fin.b ++ be4 fin.c ++ be4 fin.d ++ be4 fin.e ++ be4 fin.f ++
    be4 fin.g ++ be4 fin.h

/-- The sixteen lowercase hexadecimal digits. -/
def hexDigitChars : List Char := "0123456789abcdef".data

/-- Lowercase hex digit of a value below 16. -/
def hexChar (n : Nat) : Char := hexDigitChars.getD (n % 16) '0'

/-- Two lowercase hex digits of a byte. -/
def byteHex (b : Nat) : List Char := [hexChar (b / 16), hexChar b]

/-- `hexdigest()`: the lowercase hex string of a SHA-256 digest. -/
def sha256hex (bs : List Nat) : String := String.mk ((sha256bytes bs).flatMap byteHex)

/-- `compute_sha256` (source lines 77-82): the file is read in chunks of
2 ^ 20 bytes, each fed to the running hash (whose state is the accumulated
message), and the final digest is rendered as lowercase hex. -/
def compute_sha256 (fileBytes : List Nat) : String :=
  sha256hex ((chunksBy 1048576 fileBytes).foldl (fun acc c => acc ++ c) [])

/-- The temp file name derived from the source stem and the current time
(source line 243). -/
def tempName (stem : String) (now : Int) : String :=
  stem ++ "_" ++ toString now ++ ".png"

/-- `extract_thumbnail` (source lines 237-250): a missing entry returns None
via the caught KeyError; otherwise the bytes are written to the temp
location and then validated.  The first component lists the files written;
the second is the returned path or the raised error.  `validImg` stands for
the external PIL `Image.open(...).verify()` succeeding on the bytes; its
failure is the ContentError of the spec taxonomy. -/
def extract_thumbnail (validImg : List Nat → Bool) (z : Zip) (stem : String) (now : Int) :
    List (String × List Nat) × Except PyErr (Option String) :=
  match z.thumb with
  | Option.none => ([], Except.ok Option.none)
  | some data =>
    ([(tempName stem now, data)],
      if validImg data then Except.ok (some (tempName stem now))
      else Except.error PyErr.contentError)

/-- The JSON object emitted by `inspect_procreate`. -/
structure InspectOut where
  meta : Meta
  thumbnail_path : Option String
  source_path : String
  file_hash : String

/-- `inspect_procreate` (source lines 256-269): validate the path, read and
parse the archive (a missing entry raises KeyError), extract the thumbnail,
then attach path and hash.  `pathExists` and `suffixOk` stand for the two
filesystem checks, `fileBytes` for the container bytes that are hashed. -/
def inspect_procreate (validImg : List Nat → Bool) (pathExists suffixOk : Bool)
    (fileBytes : List Nat) (z : Zip) (path stem : String) (now : Int) :
    Except PyErr InspectOut :=
  if pathExists && suffixOk then
    match z.archive with
    | Option.none => Except.error PyErr.keyError
    | some (objects, rootRef) =>
      match parse_document_archive objects rootRef (some z) with
      | Except.error e => Except.error e
      | Except.ok meta =>
        match (extract_thumbnail validImg z stem now).2 with
        | Except.error e => Except.error e
        | Except.ok tp =>
          Except.ok (InspectOut.mk meta tp path (compute_sha256 fileBytes))
  else Except.error PyErr.runtimeError

/- ------------------------------------------------------------------ -/
/- Shared lemmas                                                      -/
/- ------------------------------------------------------------------ -/

lemma except_bind_ok {α β : Type} {e : Except PyErr α} {f : α → Except PyErr β} {b : β}
    (h : e.bind f = Except.ok b) : ∃ a, e = Except.ok a ∧ f a = Except.ok b := by
  cases e with
  | error x => simp [Except.bind] at h
  | ok a => exact ⟨a, rfl, by simpa [Except.bind] using h⟩

lemma pvIsNone_eq {v : PValue} (h : v.isNone = true) : v = PValue.none := by
  cases v <;> first | rfl | simp [PValue.isNone] at h

lemma extractMeta_dates {o : List PValue} {k : List (String × PValue)} {zf : Option Zip}
    {m : Meta} (h : extractMeta o k zf = Except.ok m) :
    ∃ cu, datesField k zf = Except.ok cu ∧ m.created_at = cu.1 ∧ m.updated_at = cu.2 := by
  unfold extractMeta at h
  obtain ⟨cw, hcw, h⟩ := except_bind_ok h
  obtain ⟨dpi, hdpi, h⟩ := except_bind_ok h
  obtain ⟨orient, horient, h⟩ := except_bind_ok h
  obtain ⟨lc, hlc, h⟩ := except_bind_ok h
  obtain ⟨tsp, htsp, h⟩ := except_bind_ok h
  obtain ⟨cp, hcp, h⟩ := except_bind_ok h
  obtain ⟨cu, hcu, h⟩ := except_bind_ok h
  refine ⟨cu, hcu, ?_, ?_⟩ <;> simp only [Except.ok.injEq] at h <;> rw [← h]

lemma clampDates_le (p : Option Int × Option Int) {c u : Int}
    (h : clampDates p = (some c, some u)) : c ≤ u := by
  obtain ⟨pc, pu⟩ := p
  cases pc with
  | none => cases pu <;> simp [clampDates] at h
  | some x =>
    cases pu with
    | none => simp [clampDates] at h
    | some y =>
      have hcd : clampDates (some x, some y) =
          if y < x then (some y, some y) else (some x, some y) := rfl
      rw [hcd] at h
      split at h <;>
        (simp only [Prod.mk.injEq, Option.some.injEq] at h; obtain ⟨h1, h2⟩ := h; omega)

lemma rootOf_eq {o : List PValue} {r : PValue} (h : cfuid r ≠ PValue.none) :
    rootOf o r = pyIndex o (cfuid r) := by
  unfold rootOf
  cases hcf : cfuid r <;> simp_all

lemma ratTrunc_eq_truncation (q : Rat) : ratTrunc q = if 0 ≤ q then ⌊q⌋ else ⌈q⌉ := by
  unfold ratTrunc
  by_cases hq : 0 ≤ q
  · rw [if_pos hq, Rat.floor_def]
    exact Int.tdiv_eq_ediv (Rat.num_nonneg.mpr hq) (Int.ofNat_nonneg _)
  · rw [if_neg hq]
    have hceil : ⌈q⌉ = -⌊-q⌋ := by rw [Int.floor_neg]; omega
    have hnum : 0 ≤ -q.num := by
      have hcontra : ¬ 0 ≤ q.num := fun hn => hq (Rat.num_nonneg.mp hn)
      omega
    have hneg : q.num.tdiv (q.den : Int) = -((-q.num).tdiv (q.den : Int)) := by
      rw [Int.neg_tdiv]
      omega
    rw [hceil, Rat.floor_def, Rat.num_neg_eq_neg_num, Rat.den_neg_eq_den, hneg,
      Int.tdiv_eq_ediv hnum (Int.ofNat_nonneg _)]

lemma canvasField_absent (o : List PValue) (k : List (String × PValue))
    (h1 : dictGet k "canvasSize" = PValue.none) (h2 : dictGet k "size" = PValue.none) :
    canvasField o k = Except.ok (some 0, some 0) := by
  unfold canvasField
  rw [h1, h2]
  rfl

lemma dpiField_absent (k : List (String × PValue))
    (h1 : dictGet k "dpi" = PValue.none)
    (h2 : dictGet k "SilicaDocumentArchiveDPIKey" = PValue.none) :
    dpiField k = Except.ok 0 := by
  unfold dpiField
  rw [h1, h2]
  rfl

lemma orientationField_absent (k : List (String × PValue))
    (h1 : dictGet k "orientation" = PValue.none) :
    orientationField k = Except.ok "unknown" := by
  unfold orientationField
  rw [h1]
  rfl

lemma layerCountField_absent (o : List PValue) (k : List (String × PValue))
    (h1 : dictGet k "layerCount" = PValue.none) (h2 : dictGet k "layers" = PValue.none) :
    layerCountField o k = Except.ok 0 := by
  unfold layerCountField
  rw [h1, h2]
  rfl

lemma timeSpentField_absent (k : List (String × PValue))
    (h1 : dictGet k "timeSpentDrawing" = PValue.none)
    (h2 : dictGet k "SilicaDocumentTrackedTimeKey" = PValue.none) :
    timeSpentField k = Except.ok 0 := by
  unfold timeSpentField
  rw [h1, h2]
  rfl

lemma colorProfileField_absent (o : List PValue) (k : List (String × PValue))
    (h1 : dictGet k "colorProfile" = PValue.none) :
    colorProfileField o k = Except.ok PValue.none := by
  unfold colorProfileField
  rw [h1]
  rfl

lemma versionVal_absent (k : List (String × PValue))
    (h1 : dictGet k "appVersion" = PValue.none) (h2 : dictGet k "version" = PValue.none) :
    versionVal k = PValue.none := by
  unfold versionVal
  rw [h1, h2]
  rfl

lemma createdVal_absent (k : List (String × PValue))
    (h1 : dictGet k "creationDate" = PValue.none)
    (h2 : dictGet k "SilicaDocumentArchiveCreationDateKey" = PValue.none)
    (h3 : dictGet k "documentCreationDate" = PValue.none) :
    createdVal k = PValue.none := by
  unfold createdVal
  rw [h1, h2, h3]
  rfl

lemma modifiedVal_absent (k : List (String × PValue))
    (h1 : dictGet k "lastModifiedDate" = PValue.none)
    (h2 : dictGet k "SilicaDocumentArchiveModificationDateKey" = PValue.none)
    (h3 : dictGet k "modificationDate" = PValue.none) :
    modifiedVal k = PValue.none := by
  unfold modifiedVal
  rw [h1, h2, h3]
  rfl

/- ------------------------------------------------------------------ -/
/- Claims                                                             -/
/- ------------------------------------------------------------------ -/

/-- Claim C1 (amended): for every decoded container whose root resolves to a
Dict in which none of the extractor's keys is present, the call returns
without raising and the result holds every schema field at its documented
default: canvas, dpi, layer count and time spent 0, orientation unknown, and
color profile, version and both dates null. -/
theorem claim_C1 (objects : List PValue) (rootRef : PValue)
    (root : List (String × PValue))
    (hroot : rootOf objects rootRef = Except.ok (PValue.dict root))
    (hkeys : noMetaKeys root = true) :
    parse_document_archive objects rootRef Option.none =
      Except.ok (Meta.mk (some 0) (some 0) 0 "unknown" 0 0 PValue.none PValue.none
        Option.none Option.none) := by
  have hk : ∀ key ∈ metaKeys, dictGet root key = PValue.none := by
    intro key hmem
    exact pvIsNone_eq (List.all_eq_true.mp hkeys key hmem)
  have h1 := canvasField_absent objects root
    (hk _ (by simp [metaKeys])) (hk _ (by simp [metaKeys]))
  have h2 := dpiField_absent root (hk _ (by simp [metaKeys])) (hk _ (by simp [metaKeys]))
  have h3 := orientationField_absent root (hk _ (by simp [metaKeys]))
  have h4 := layerCountField_absent objects root
    (hk _ (by simp [metaKeys])) (hk _ (by simp [metaKeys]))
  have h5 := timeSpentField_absent root (hk _ (by simp [metaKeys])) (hk _ (by simp [metaKeys]))
  have h6 := colorProfileField_absent objects root (hk _ (by simp [metaKeys]))
  have h7 := versionVal_absent root (hk _ (by simp [metaKeys])) (hk _ (by simp [metaKeys]))
  have h8 := createdVal_absent root (hk _ (by simp [metaKeys])) (hk _ (by simp [metaKeys]))
    (hk _ (by simp [metaKeys]))
  have h9 := modifiedVal_absent root (hk _ (by simp [metaKeys])) (hk _ (by simp [metaKeys]))
    (hk _ (by simp [metaKeys]))
  have hred : parse_document_archive objects rootRef Option.none =
      extractMeta objects root Option.none := by
    unfold parse_document_archive
    rw [hroot]
  rw [hred]
  unfold extractMeta datesField
  rw [h1, h2, h3, h4, h5, h6, h7, h8, h9]
  rfl

/-- Witness for claim C1 at a root holding only an unrelated key. -/
theorem claim_C1_witness :
    parse_document_archive [PValue.dict [("foo", PValue.int 5)]] (PValue.uid 0) Option.none =
      Except.ok (Meta.mk (some 0) (some 0) 0 "unknown" 0 0 PValue.none PValue.none
        Option.none Option.none) :=
  claim_C1 _ _ [("foo", PValue.int 5)] rfl rfl

/-- Counterexample to claim C1 as stated: a root whose dpi key holds the
unparseable string abc makes the call raise ValueError instead of degrading
to the documented default 0. -/
theorem claim_C1_counterexample :
    parse_document_archive [PValue.dict [("dpi", PValue.str "abc")]] (PValue.uid 0)
      Option.none = Except.error PyErr.valueError := rfl

/-- Claim C2 (amended): an unresolvable root pointer fails with the explicit
RuntimeError before any field extraction; a root that resolves to a non-Dict
also makes the call fail, but with the AttributeError arising at the first
field lookup of the extraction section rather than a dedicated check. -/
theorem claim_C2 :
    (∀ (objects : List PValue) (rootRef : PValue) (zf : Option Zip),
        cfuid rootRef = PValue.none →
        parse_document_archive objects rootRef zf = Except.error PyErr.runtimeError) ∧
    (∀ (objects : List PValue) (rootRef v : PValue) (zf : Option Zip),
        pyIndex objects (cfuid rootRef) = Except.ok v → v.isDict = false →
        parse_document_archive objects rootRef zf = Except.error PyErr.attributeError) := by
  constructor
  · intro objects rootRef zf h
    unfold parse_document_archive rootOf
    rw [h]
  · intro objects rootRef v zf h1 h2
    have hne : cfuid rootRef ≠ PValue.none := by
      intro heq
      rw [heq] at h1
      simp [pyIndex] at h1
    unfold parse_document_archive
    rw [rootOf_eq hne, h1]
    cases v <;> first | rfl | (exact absurd h2 (by simp [PValue.isDict]))

/-- Witness for claim C2: a string root pointer raises RuntimeError; a root
resolving to a list raises AttributeError. -/
theorem claim_C2_witness :
    parse_document_archive [PValue.dict []] (PValue.str "y") Option.none =
      Except.error PyErr.runtimeError ∧
    parse_document_archive [PValue.arr []] (PValue.uid 0) Option.none =
      Except.error PyErr.attributeError :=
  ⟨claim_C2.1 _ _ _ rfl, claim_C2.2 _ _ (PValue.arr []) _ rfl rfl⟩

/-- Counterexample to claim C2 as stated: a root resolving to a plain string
fails with AttributeError, which is not the FormatError-carrying
RuntimeError the source dedicates to root resolution, and it arises at the
first field lookup rather than before the extraction section. -/
theorem claim_C2_counterexample :
    parse_document_archive [PValue.str "x"] (PValue.uid 0) Option.none =
      Except.error PyErr.attributeError ∧
    PyErr.attributeError ≠ PyErr.runtimeError :=
  ⟨rfl, by decide⟩

/-- Claim C3 evaluated on the code: a Dict canvas referenced through the
object table yields its width and height; the brace string with two parts
yields the same values; but a brace string with three parts leaves both
canvas fields unassigned in the returned metadata instead of setting them
to 0, contradicting the documented always-present default. -/
theorem claim_C3 :
    parse_document_archive
      [PValue.dict [("canvasSize", PValue.dict [("CF$UID", PValue.int 1)])],
       PValue.dict [("width", PValue.int 100), ("height", PValue.int 200)]]
      (PValue.uid 0) Option.none =
      Except.ok (Meta.mk (some 100) (some 200) 0 "unknown" 0 0 PValue.none PValue.none
        Option.none Option.none) ∧
    parse_document_archive
      [PValue.dict [("size", PValue.str "\x7b100, 200\x7d")]] (PValue.uid 0) Option.none =
      Except.ok (Meta.mk (some 100) (some 200) 0 "unknown" 0 0 PValue.none PValue.none
        Option.none Option.none) ∧
    parse_document_archive
      [PValue.dict [("size", PValue.str "\x7b1, 2, 3\x7d")]] (PValue.uid 0) Option.none =
      Except.ok (Meta.mk Option.none Option.none 0 "unknown" 0 0 PValue.none PValue.none
        Option.none Option.none) :=
  ⟨rfl, rfl, rfl⟩

/-- Claim C4 (amended): cfuid returns the carried value for a native Uid and
for any record containing the CF$UID key, even when other keys are present;
it returns None for records without that key and for every other shape. -/
theorem claim_C4 :
    (∀ n : Nat, cfuid (PValue.uid n) = PValue.int n) ∧
    (∀ (entries : List (String × PValue)) (v : PValue),
        lookupKV entries "CF$UID" = some v → cfuid (PValue.dict entries) = v) ∧
    (∀ entries : List (String × PValue),
        lookupKV entries "CF$UID" = Option.none → cfuid (PValue.dict entries) = PValue.none) ∧
    cfuid PValue.none = PValue.none ∧
    (∀ b, cfuid (PValue.bool b) = PValue.none) ∧
    (∀ n, cfuid (PValue.int n) = PValue.none) ∧
    (∀ q, cfuid (PValue.real q) = PValue.none) ∧
    (∀ s, cfuid (PValue.str s) = PValue.none) ∧
    (∀ items, cfuid (PValue.arr items) = PValue.none) := by
  refine ⟨fun n => rfl, ?_, ?_, rfl, fun b => rfl, fun n => rfl, fun q => rfl,
    fun s => rfl, fun items => rfl⟩
  · intro entries v h
    show (match lookupKV entries "CF$UID" with
          | some w => w
          | Option.none => PValue.none) = v
    rw [h]
  · intro entries h
    show (match lookupKV entries "CF$UID" with
          | some w => w
          | Option.none => PValue.none) = PValue.none
    rw [h]

/-- Witness for claim C4 on a single-key wrapper and a keyless record. -/
theorem claim_C4_witness :
    cfuid (PValue.dict [("CF$UID", PValue.int 3)]) = PValue.int 3 ∧
    cfuid (PValue.dict [("a", PValue.int 1)]) = PValue.none :=
  ⟨claim_C4.2.1 _ _ rfl, claim_C4.2.2.1 _ rfl⟩

/-- Counterexample to claim C4 as stated: a record carrying CF$UID among
other keys is still treated as a reference, yielding the carried UID rather
than none. -/
theorem claim_C4_counterexample :
    cfuid (PValue.dict [("CF$UID", PValue.int 7), ("x", PValue.bool true)]) = PValue.int 7 ∧
    PValue.int 7 ≠ PValue.none :=
  ⟨rfl, fun h => PValue.noConfusion h⟩

/-- Claim C5 (amended): the per-field key chains are first-truthy-wins: a
truthy primary value is used and the legacy key ignored, while a falsy
primary value, 0 included, falls through to the legacy key. -/
theorem claim_C5 :
    (∀ root : List (String × PValue), truthy (dictGet root "dpi") = true →
        dpiField root = pyInt (dictGet root "dpi")) ∧
    (∀ root : List (String × PValue), truthy (dictGet root "dpi") = false →
        dpiField root = intOrZeroField (dictGet root "SilicaDocumentArchiveDPIKey")) ∧
    (∀ root : List (String × PValue), truthy (dictGet root "timeSpentDrawing") = true →
        timeSpentField root = pyInt (dictGet root "timeSpentDrawing")) ∧
    (∀ root : List (String × PValue), truthy (dictGet root "timeSpentDrawing") = false →
        timeSpentField root = intOrZeroField (dictGet root "SilicaDocumentTrackedTimeKey")) := by
  refine ⟨?_, ?_, ?_, ?_⟩ <;> intro root h <;>
    simp [dpiField, timeSpentField, intOrZeroField, pyOr, h]

/-- Witness for claim C5: a truthy dpi is used directly; a present-but-zero
time-spent value falls through to the legacy key. -/
theorem claim_C5_witness :
    dpiField [("dpi", PValue.int 7)] = pyInt (dictGet [("dpi", PValue.int 7)] "dpi") ∧
    timeSpentField [("timeSpentDrawing", PValue.int 0),
        ("SilicaDocumentTrackedTimeKey", PValue.int 9)] =
      intOrZeroField (dictGet [("timeSpentDrawing", PValue.int 0),
        ("SilicaDocumentTrackedTimeKey", PValue.int 9)] "SilicaDocumentTrackedTimeKey") :=
  ⟨claim_C5.1 _ rfl, claim_C5.2.2.2 _ rfl⟩

/-- Counterexample to claim C5 as stated: with dpi present and equal to 0
the legacy key is consulted and its value 300 is emitted, not the primary
value 0. -/
theorem claim_C5_counterexample :
    parse_document_archive
      [PValue.dict [("dpi", PValue.int 0), ("SilicaDocumentArchiveDPIKey", PValue.int 300)]]
      (PValue.uid 0) Option.none =
      Except.ok (Meta.mk (some 0) (some 0) 300 "unknown" 0 0 PValue.none PValue.none
        Option.none Option.none) := rfl

/-- Claim C6: whenever the parse succeeds with both dates non-null, created
is at most updated, and the final clamp rewrites a too-late created to the
untouched updated value. -/
theorem claim_C6 :
    (∀ (objects : List PValue) (rootRef : PValue) (zf : Option Zip) (m : Meta) (c u : Int),
        parse_document_archive objects rootRef zf = Except.ok m →
        m.created_at = some c → m.updated_at = some u → c ≤ u) ∧
    (∀ c u : Int, u < c → clampDates (some c, some u) = (some u, some u)) := by
  constructor
  · intro objects rootRef zf m c u h hc hu
    unfold parse_document_archive at h
    cases hr : rootOf objects rootRef with
    | error e => rw [hr] at h; simp at h
    | ok v =>
      rw [hr] at h
      cases v with
      | none => simp at h
      | bool b => simp at h
      | int n => simp at h
      | real q => simp at h
      | str s => simp at h
      | uid n => simp at h
      | arr items => simp at h
      | dict root =>
        have hx : extractMeta objects root zf = Except.ok m := h
        obtain ⟨cu2, hcu, h1, h2⟩ := extractMeta_dates hx
        unfold datesField at hcu
        obtain ⟨c0, hc0, hcu⟩ := except_bind_ok hcu
        obtain ⟨u0, hu0, hcu⟩ := except_bind_ok hcu
        simp only [Except.ok.injEq] at hcu
        rw [h1] at hc
        rw [h2] at hu
        exact clampDates_le (applyZipFallback zf c0 u0) (hcu.trans (Prod.ext hc hu))
  · intro c u h
    simp [clampDates, h]

/-- Witness for claim C6 on a root whose creation date exceeds its
modification date, so the clamp fires. -/
theorem claim_C6_witness :
    (978307203 : Int) ≤ 978307203 ∧ clampDates (some 5, some 3) = (some 3, some 3) :=
  ⟨claim_C6.1 [PValue.dict [("creationDate", PValue.int 5), ("lastModifiedDate", PValue.int 3)]]
      (PValue.uid 0) Option.none
      (Meta.mk (some 0) (some 0) 0 "unknown" 0 0 PValue.none PValue.none
        (some 978307203) (some 978307203)) 978307203 978307203 rfl rfl rfl,
    claim_C6.2 5 3 (by omega)⟩

/-- Claim C7: converting an archive-native timestamp adds the fixed offset
978307200 and truncates toward zero; the reference epoch 0.0 maps to unix
978307200 and a null value passes through as null. -/
theorem claim_C7 :
    (∀ q : Rat, apple_time_to_unix (PValue.real q) =
        Except.ok (some (if 0 ≤ q + 978307200 then ⌊q + 978307200⌋ else ⌈q + 978307200⌉))) ∧
    apple_time_to_unix (PValue.real 0) = Except.ok (some 978307200) ∧
    apple_time_to_unix PValue.none = Except.ok Option.none := by
  have hmain : ∀ q : Rat, apple_time_to_unix (PValue.real q) =
      Except.ok (some (if 0 ≤ q + 978307200 then ⌊q + 978307200⌋ else ⌈q + 978307200⌉)) := by
    intro q
    show Except.ok (some (ratTrunc (q + ((978307200 : Int) : Rat)))) = _
    rw [ratTrunc_eq_truncation]
    norm_num
  refine ⟨hmain, ?_, rfl⟩
  rw [hmain 0]
  norm_num

/-- Claim C8: a container without a thumbnail entry yields a null thumbnail
without error, while a present entry is written to the temp location, and a
validation failure raises ContentError, aborting the whole inspect call so
that no metadata is emitted. -/
theorem claim_C8 :
    (∀ (validImg : List Nat → Bool) (z : Zip) (stem : String) (now : Int),
        z.thumb = Option.none →
        extract_thumbnail validImg z stem now = ([], Except.ok Option.none)) ∧
    (∀ (validImg : List Nat → Bool) (fileBytes : List Nat) (z : Zip)
        (path stem : String) (now : Int) (data : List Nat) (objects : List PValue)
        (rootRef : PValue) (m : Meta),
        z.thumb = some data → validImg data = false →
        z.archive = some (objects, rootRef) →
        parse_document_archive objects rootRef (some z) = Except.ok m →
        (extract_thumbnail validImg z stem now).1 = [(tempName stem now, data)] ∧
        inspect_procreate validImg true true fileBytes z path stem now =
          Except.error PyErr.contentError) := by
  constructor
  · intro validImg z stem now h
    unfold extract_thumbnail
    rw [h]
  · intro validImg fileBytes z path stem now data objects rootRef m ht hv ha hp
    constructor
    · unfold extract_thumbnail
      rw [ht]
    · simp [inspect_procreate, extract_thumbnail, ha, hp, ht, hv]

/-- Witness for claim C8: a thumbnail-free container returns null, and a
container whose thumbnail fails validation aborts with ContentError. -/
theorem claim_C8_witness :
    extract_thumbnail (fun _ => false) (Zip.mk Option.none Option.none Option.none Option.none)
      "s" 0 = ([], Except.ok Option.none) ∧
    inspect_procreate (fun _ => false) true true []
      (Zip.mk (some ([PValue.dict []], PValue.uid 0)) (some [1]) Option.none Option.none)
      "p" "s" 0 = Except.error PyErr.contentError :=
  ⟨claim_C8.1 (fun _ => false) _ "s" 0 rfl,
    (claim_C8.2 (fun _ => false) []
      (Zip.mk (some ([PValue.dict []], PValue.uid 0)) (some [1]) Option.none Option.none)
      "p" "s" 0 [1] [PValue.dict []] (PValue.uid 0)
      (Meta.mk (some 0) (some 0) 0 "unknown" 0 0 PValue.none PValue.none
        Option.none Option.none) rfl rfl rfl rfl).2⟩

lemma foldl_append_eq (ls : List (List Nat)) (acc : List Nat) :
    ls.foldl (fun a c => a ++ c) acc = acc ++ ls.flatten := by
  induction ls generalizing acc with
  | nil => simp
  | cons hd tl ih => simp [List.foldl_cons, ih, List.flatten_cons, List.append_assoc]

lemma chunksBy_flatten (n : Nat) (hn : 0 < n) (bs : List Nat) :
    (chunksBy n bs).flatten = bs := by
  have H : ∀ (L : Nat) (l : List Nat), l.length ≤ L → (chunksBy n l).flatten = l := by
    intro L
    induction L with
    | zero =>
      intro l hl
      have : l = [] := List.eq_nil_of_length_eq_zero (by omega)
      rw [this, chunksBy]
      rfl
    | succ L ih =>
      intro l hl
      match l with
      | [] => rw [chunksBy]; rfl
      | b :: l2 =>
        have hstep : chunksBy n (b :: l2) =
            ((b :: l2).take n) :: chunksBy n (l2.drop (n - 1)) := by
          rw [chunksBy]
        rw [hstep, List.flatten_cons,
          ih (l2.drop (n - 1)) (by simp only [List.length_drop]; simp at hl; omega)]
        obtain ⟨m, rfl⟩ : ∃ m, n = m + 1 := ⟨n - 1, by omega⟩
        simp only [List.take_succ_cons, Nat.add_sub_cancel, List.cons_append,
          List.cons.injEq, true_and]
        exact List.take_append_drop m l2
  exact H bs.length bs le_rfl

lemma hexChar_mem (n : Nat) : hexChar n ∈ hexDigitChars := by
  unfold hexChar
  have hlt : n % 16 < 16 := Nat.mod_lt _ (by norm_num)
  have hall : ∀ k, k < 16 → hexDigitChars.getD k '0' ∈ hexDigitChars := by
    decide
  exact hall _ hlt

lemma flatMap_byteHex_length (l : List Nat) : (l.flatMap byteHex).length = 2 * l.length := by
  induction l with
  | nil => rfl
  | cons b t ih =>
    simp only [List.flatMap_cons, List.length_append, List.length_cons, ih, byteHex,
      List.length_nil]
    omega

lemma flatMap_byteHex_hex (l : List Nat) :
    ((l.flatMap byteHex).all fun c => hexDigitChars.contains c) = true := by
  induction l with
  | nil => rfl
  | cons b t ih =>
    simp only [List.flatMap_cons, List.all_append, ih, Bool.and_true]
    simp only [byteHex, List.all_cons, List.all_nil, Bool.and_true]
    simp [hexChar_mem]

lemma sha256bytes_length (bs : List Nat) : (sha256bytes bs).length = 32 := by
  unfold sha256bytes be4
  simp

lemma sha256hex_length (bs : List Nat) : (sha256hex bs).length = 64 := by
  show ((sha256bytes bs).flatMap byteHex).length = 64
  rw [flatMap_byteHex_length, sha256bytes_length]

/-- Claim C9: the content hash is deterministic, is always a 64-character
string of lowercase hexadecimal digits, and the chunked streaming
computation hashes exactly the source bytes. -/
theorem claim_C9 (fileBytes : List Nat) :
    compute_sha256 fileBytes = compute_sha256 fileBytes ∧
    (compute_sha256 fileBytes).length = 64 ∧
    ((compute_sha256 fileBytes).data.all fun c => hexDigitChars.contains c) = true ∧
    compute_sha256 fileBytes = sha256hex fileBytes := by
  have hchunks : compute_sha256 fileBytes = sha256hex fileBytes := by
    unfold compute_sha256
    rw [foldl_append_eq, List.nil_append, chunksBy_flatten 1048576 (by norm_num)]
  refine ⟨rfl, ?_, ?_, hchunks⟩
  · rw [hchunks]
    exact sha256hex_length fileBytes
  · rw [hchunks]
    show ((sha256bytes fileBytes).flatMap byteHex).all _ = true
    exact flatMap_byteHex_hex _

/-- Claim C10: when no archive date key yields a value for either date and
the container provides a stored timestamp, both output dates equal that
container timestamp. -/
theorem claim_C10 (objects : List PValue) (rootRef : PValue) (z : Zip)
    (root : List (String × PValue)) (m : Meta) (t : Int)
    (hroot : rootOf objects rootRef = Except.ok (PValue.dict root))
    (h : parse_document_archive objects rootRef (some z) = Except.ok m)
    (hc : createdVal root = PValue.none) (hm : modifiedVal root = PValue.none)
    (ht : zipTimestamp z = some t) :
    m.created_at = some t ∧ m.updated_at = some t := by
  unfold parse_document_archive at h
  rw [hroot] at h
  have hx : extractMeta objects root (some z) = Except.ok m := h
  obtain ⟨cu, hcu, h1, h2⟩ := extractMeta_dates hx
  unfold datesField at hcu
  rw [hc, hm] at hcu
  have hfb : applyZipFallback (some z) Option.none Option.none = (some t, some t) := by
    unfold applyZipFallback
    simp [ht]
  have hred : ((apple_time_to_unix PValue.none).bind fun c =>
      (apple_time_to_unix PValue.none).bind fun u =>
      Except.ok (clampDates (applyZipFallback (some z) c u))) =
      Except.ok (clampDates (applyZipFallback (some z) Option.none Option.none)) := rfl
  rw [hred, hfb] at hcu
  have hcl : clampDates (some t, some t) = (some t, some t) := by
    simp [clampDates]
  rw [hcl] at hcu
  simp only [Except.ok.injEq] at hcu
  exact ⟨by rw [h1, ← hcu], by rw [h2, ← hcu]⟩

/-- Witness for claim C10 on an empty root with a container thumbnail
timestamp of 111. -/
theorem claim_C10_witness :
    (Meta.mk (some 0) (some 0) 0 "unknown" 0 0 PValue.none PValue.none
      (some 111) (some 111)).created_at = some 111 ∧
    (Meta.mk (some 0) (some 0) 0 "unknown" 0 0 PValue.none PValue.none
      (some 111) (some 111)).updated_at = some 111 :=
  claim_C10 [PValue.dict []] (PValue.uid 0)
    (Zip.mk Option.none Option.none (some 111) Option.none) [] _ 111 rfl rfl rfl rfl rfl

end ProcreateMeta
